import Mathlib

/-
  Verification of the WinEnhanceMouse interaction state machine.

  Shallow embedding of the interaction engine (`winenhancemouse/engine.py`),
  the overlay surface controller (`winenhancemouse/gui/menu_overlay.py`) and
  the action registry (`winenhancemouse/actions/registry.py`).

  Modelling conventions:
  - Python `float` wall-clock timestamps (seconds) are modelled as `Int`
    milliseconds; the 0.35 s double-click window becomes 350 ms.
  - Python `int` values (the overlay focus index, scroll deltas) are `Int`;
    Python `%` on `int` with a positive modulus coincides with `Int.emod`.
  - Dictionaries of action parameters are association lists.
  - Side-effecting dispatch (`registry.execute`) is modelled by recording the
    sequence of calls made, and a raised exception by `Except.error`.
  - The engine's `_current_mode_index` is initialised to 0 and never
    reassigned anywhere in the source, so the active mode
    (`self._config.modes[self._current_mode_index]`) is constant for a
    session; `EngineState.mode` holds that active mode directly.
-/

deriving instance DecidableEq for Except

namespace WinEnhanceMouse

/-- `config.ActionBinding`: an action identifier, a human-readable label and
a parameter mapping (modelled as an association list). -/
structure ActionBinding where
  id : String
  label : String
  params : List (String × String)
deriving DecidableEq

/-- `config.ModeConfig`: a mode name plus the primary and secondary binding
lists shown while that mode is active. -/
structure ModeConfig where
  name : String
  primary_queue : List ActionBinding
  secondary_queue : List ActionBinding
deriving DecidableEq

/-- `gui.menu_overlay.MenuItem`: a binding paired with its queue-level tag
(1 for primary, 2 for secondary). -/
structure MenuItem where
  binding : ActionBinding
  queue_level : Nat
deriving DecidableEq

/-- The state owned by `gui.menu_overlay.MenuOverlay`: the displayed item
list `_items`, the focus index `_focus_index` (a Python `int`) and the
visibility flag `_visible`. -/
structure OverlayState where
  items : List MenuItem
  focus_index : Int
  visible : Bool
deriving DecidableEq

/-- `MenuOverlay.open`: store a fresh item list, reset the focus index to 0
and make the surface visible. -/
def overlay_open (items : List MenuItem) (o : OverlayState) : OverlayState :=
  { o with items := items, focus_index := 0, visible := true }

/-- `MenuOverlay.close`: hide the surface; items and focus index are kept. -/
def overlay_close (o : OverlayState) : OverlayState :=
  { o with visible := false }

/-- `MenuOverlay.focus_next`: no-op when `_items` is empty, otherwise
`_focus_index = (_focus_index + 1) % len(_items)`. -/
def focus_next (o : OverlayState) : OverlayState :=
  if o.items = [] then o
  else { o with focus_index := (o.focus_index + 1) % (o.items.length : Int) }

/-- `MenuOverlay.focus_prev`: no-op when `_items` is empty, otherwise
`_focus_index = (_focus_index - 1) % len(_items)` (Python `%` on a positive
modulus, i.e. `Int.emod`, so the result wraps into `[0, len)`). -/
def focus_prev (o : OverlayState) : OverlayState :=
  if o.items = [] then o
  else { o with focus_index := (o.focus_index - 1) % (o.items.length : Int) }

/-- The engine state mutated by `engine.Engine`'s input handlers: the active
mode, the overlay state, `_menu_active`, `_primary_queue`, `_secondary_queue`
and `_last_left_click` (milliseconds). -/
structure EngineState where
  mode : ModeConfig
  overlay : OverlayState
  menu_active : Bool
  primary_queue : List ActionBinding
  secondary_queue : List ActionBinding
  last_left_click : Int
deriving DecidableEq

/-- The concatenation `mode.primary_queue + mode.secondary_queue` computed at
the top of `Engine._current_focus_binding`. -/
def all_mode_items (s : EngineState) : List ActionBinding :=
  s.mode.primary_queue ++ s.mode.secondary_queue

/-- `Engine._current_focus_binding`: `None` when the concatenated mode lists
are empty, otherwise the element at `max(0, min(len - 1, focus_index))`. -/
def current_focus_binding (s : EngineState) : Option ActionBinding :=
  if h : all_mode_items s = [] then none
  else
    some ((all_mode_items s).get
      ⟨(max 0 (min ((all_mode_items s).length - 1 : Int) s.overlay.focus_index)).toNat, by
        have hl : 0 < (all_mode_items s).length := List.length_pos.mpr h
        have h1 : min ((all_mode_items s).length - 1 : Int) s.overlay.focus_index ≤
            ((all_mode_items s).length - 1 : Int) := min_le_left _ _
        have h0 : (0 : Int) ≤
            max 0 (min ((all_mode_items s).length - 1 : Int) s.overlay.focus_index) :=
          le_max_left _ _
        have h2 : max 0 (min ((all_mode_items s).length - 1 : Int) s.overlay.focus_index) ≤
            ((all_mode_items s).length - 1 : Int) := by
          apply max_le _ h1
          omega
        omega⟩)

/-- `Engine._toggle_menu`: close when the menu is active or a forced close is
requested (the overlay is hidden and `_menu_active` cleared, the queues are
untouched); otherwise open: snapshot the active mode's lists into tagged
`MenuItem`s (primary tagged 1 before secondary tagged 2), show the overlay
with them, clear both queues and set `_menu_active`. -/
def toggle_menu (force_close : Bool) (s : EngineState) : EngineState :=
  if s.menu_active && !force_close then
    { s with overlay := overlay_close s.overlay, menu_active := false }
  else if force_close then
    { s with overlay := overlay_close s.overlay, menu_active := false }
  else
    { s with
      overlay := overlay_open
        (s.mode.primary_queue.map (fun b => MenuItem.mk b 1) ++
          s.mode.secondary_queue.map (fun b => MenuItem.mk b 2)) s.overlay,
      primary_queue := [],
      secondary_queue := [],
      menu_active := true }

/-- The `double_click` test in `Engine._handle_left_click`:
`now - self._last_left_click < 0.35` (350 ms here). -/
def is_double_click (s : EngineState) (now : Int) : Bool :=
  decide (now - s.last_left_click < 350)

/-- `Engine._handle_left_click`: sample the clock, classify the click against
the previous left-click's timestamp (the `double_click` flag is computed
before `_last_left_click` is overwritten), unconditionally record the new
timestamp, then look up the focused binding (on the updated state, matching
the source's statement order) and, if there is one, append it to the
secondary queue on a double click and to the primary queue otherwise. -/
def handle_left_click (now : Int) (s : EngineState) : EngineState :=
  match current_focus_binding { s with last_left_click := now } with
  | none => { s with last_left_click := now }
  | some focused =>
    if is_double_click s now then
      { s with last_left_click := now, secondary_queue := s.secondary_queue ++ [focused] }
    else
      { s with last_left_click := now, primary_queue := s.primary_queue ++ [focused] }

/-- `Engine._handle_right_click`: pop the last element of the primary queue
if it is non-empty, else the last element of the secondary queue if it is
non-empty, else force-close the menu. -/
def handle_right_click (s : EngineState) : EngineState :=
  if s.primary_queue ≠ [] then { s with primary_queue := s.primary_queue.dropLast }
  else if s.secondary_queue ≠ [] then { s with secondary_queue := s.secondary_queue.dropLast }
  else toggle_menu true s

/-- `Engine._on_scroll`: ignored while the menu is closed; otherwise `dy > 0`
invokes `focus_prev` and any other `dy` invokes `focus_next`. -/
def on_scroll (dy : Int) (s : EngineState) : EngineState :=
  if !s.menu_active then s
  else if 0 < dy then { s with overlay := focus_prev s.overlay }
  else { s with overlay := focus_next s.overlay }

/-- The `pynput` scroll convention used by `Engine._on_scroll`'s `dy`
argument: a positive `dy` is a scroll up, i.e. the wheel rotated away from
the user; a negative `dy` is a scroll down, toward the user. -/
def scroll_away_from_user (dy : Int) : Bool :=
  decide (0 < dy)

/-- A call made to `registry.execute(binding.id, binding.params)`. -/
abbrev DispatchCall := String × List (String × String)

/-- The `execute` call that dispatching a binding performs. -/
def dispatch_call (b : ActionBinding) : DispatchCall :=
  (b.id, b.params)

/-- `actions.registry.ActionRegistry`: the set of registered identifiers,
plus the behaviour of each registered handler (`true` when the handler
returns normally, `false` when it raises). -/
structure ActionRegistry where
  registered : List String
  handlerOk : String → List (String × String) → Bool

/-- `ActionRegistry.execute`: raise a `KeyError` for an unknown identifier,
otherwise invoke the handler, propagating a handler failure. -/
def ActionRegistry.execute (reg : ActionRegistry) (id : String)
    (params : List (String × String)) : Except String Unit :=
  if id ∈ reg.registered then
    if reg.handlerOk id params then Except.ok ()
    else Except.error ("Handler failure in action " ++ id)
  else Except.error ("Unknown action " ++ id)

/-- The dispatch loop over one queue in `Engine._execute_queues`: dispatch
each binding in order, stopping at the first raised exception. Returns the
calls successfully made and the exception, if one was raised. -/
def run_dispatches (reg : ActionRegistry) :
    List ActionBinding → List DispatchCall × Option String
  | [] => ([], none)
  | b :: rest =>
    match reg.execute b.id b.params with
    | Except.error e => ([], some e)
    | Except.ok _ =>
      let r := run_dispatches reg rest
      (dispatch_call b :: r.1, r.2)

/-- `Engine._execute_queues`: dispatch the primary queue, then the secondary
queue, then force-close the menu. There is no exception handler in the
source, so a raised exception aborts the remaining dispatches and skips the
forced close; the result is the list of calls made together with either the
propagated exception or the resulting engine state. -/
def execute_queues (reg : ActionRegistry) (s : EngineState) :
    List DispatchCall × Except String EngineState :=
  match run_dispatches reg s.primary_queue with
  | (tr1, some e) => (tr1, Except.error e)
  | (tr1, none) =>
    match run_dispatches reg s.secondary_queue with
    | (tr2, some e) => (tr1 ++ tr2, Except.error e)
    | (tr2, none) => (tr1 ++ tr2, Except.ok (toggle_menu true s))

/-! Concrete fixtures used by witnesses and counterexamples. -/

/-- Sample binding. -/
def bA : ActionBinding := ⟨"a", "Alpha", []⟩

/-- Sample binding. -/
def bB : ActionBinding := ⟨"b", "Beta", []⟩

/-- Sample binding. -/
def bC : ActionBinding := ⟨"c", "Gamma", []⟩

/-- A binding whose identifier is not registered. -/
def bNope : ActionBinding := ⟨"nope", "Nope", []⟩

/-- A registered binding. -/
def bCopy : ActionBinding := ⟨"copy", "Copy", []⟩

/-- A mode with two primary bindings and one secondary binding. -/
def modeW : ModeConfig := ⟨"default", [bA, bB], [bC]⟩

/-- A mode with a single primary binding. -/
def mode6 : ModeConfig := ⟨"single", [bA], []⟩

/-- A mode with no bindings at all. -/
def modeEmpty : ModeConfig := ⟨"empty", [], []⟩

/-- A registry in which every sample identifier is registered and every
handler succeeds. -/
def regAll : ActionRegistry := ⟨["a", "b", "c", "copy"], fun _ _ => true⟩

/-- A registry that only knows `copy`. -/
def regCopyOnly : ActionRegistry := ⟨["copy"], fun _ _ => true⟩

/-- A hidden, empty overlay. -/
def overlay0 : OverlayState := ⟨[], 0, false⟩

/-- An overlay showing the three `modeW` items with focus 0. -/
def overlayW : OverlayState := ⟨[⟨bA, 1⟩, ⟨bB, 1⟩, ⟨bC, 2⟩], 0, true⟩

/-- Open-menu state over `modeW` with primary queue `[A, B]` and secondary
queue `[C]`. -/
def s1w : EngineState := ⟨modeW, overlayW, true, [bA, bB], [bC], 0⟩

/-- Open-menu state over `modeW` with empty queues and a last left-click at
1000 ms. -/
def s2w : EngineState := ⟨modeW, overlayW, true, [], [], 1000⟩

/-- Open-menu state with primary `[A, B]` and secondary `[C]` (the secondary
element being the most recently appended one, conceptually). -/
def s3a : EngineState := ⟨modeW, overlayW, true, [bA, bB], [bC], 0⟩

/-- Open-menu state with an empty primary queue and secondary `[C]`. -/
def s3b : EngineState := ⟨modeW, overlayW, true, [], [bC], 0⟩

/-- Open-menu state with both queues empty. -/
def s3c : EngineState := ⟨modeW, overlayW, true, [], [], 0⟩

/-- Closed-menu state with stale non-empty queues. -/
def s4w : EngineState := ⟨modeW, overlay0, false, [bA], [bB], 7⟩

/-- Open-menu state whose primary queue starts with an unregistered binding
followed by a registered one. -/
def s5w : EngineState := ⟨modeW, overlayW, true, [bNope, bCopy], [], 0⟩

/-- Open-menu state whose primary queue dispatches cleanly while the
secondary queue starts with an unregistered binding followed by a
registered one. -/
def s5s : EngineState := ⟨modeW, overlayW, true, [bCopy], [bNope, bCopy], 0⟩

/-- Closed-menu initial state over `mode6`, with empty queues. -/
def s6w : EngineState := ⟨mode6, overlay0, false, [], [], 0⟩

/-- Open-menu state whose active mode has no bindings. -/
def sEmptyMode : EngineState := ⟨modeEmpty, ⟨[], 0, true⟩, true, [], [], 0⟩

/-- Open-menu state used to exhibit the scroll direction routing: three
items, focus 0. -/
def s9w : EngineState := ⟨modeW, overlayW, true, [], [], 0⟩

/-- Overlay with three items and focus 1, for the wrap-around witness. -/
def oW : OverlayState := ⟨[⟨bA, 1⟩, ⟨bB, 1⟩, ⟨bC, 2⟩], 1, true⟩

/-- Overlay with no items, for the zero-item no-op witness. -/
def zW : OverlayState := ⟨[], 5, false⟩

/-! ## Theorems -/

/-- Helper: the focused binding only depends on the active mode and the
overlay focus index, so updating the click timestamp preserves it. -/
theorem current_focus_binding_last_update (s : EngineState) (x : Int) :
    current_focus_binding { s with last_left_click := x } = current_focus_binding s := rfl

/-- Helper: a left-click never changes the active mode or the overlay, so it
preserves the focused binding. -/
theorem current_focus_binding_handle_left_click (now : Int) (s : EngineState) :
    current_focus_binding (handle_left_click now s) = current_focus_binding s := by
  unfold handle_left_click
  cases hc : current_focus_binding { s with last_left_click := now } with
  | none => exact current_focus_binding_last_update s now
  | some b =>
    by_cases hd : is_double_click s now <;> simp [hd] <;> rfl

/-- Helper: with no focused binding, a left-click only records its
timestamp. -/
theorem handle_left_click_no_focus (s : EngineState) (now : Int)
    (h : all_mode_items s = []) :
    handle_left_click now s = { s with last_left_click := now } := by
  unfold handle_left_click
  have hc : current_focus_binding { s with last_left_click := now } = none := by
    unfold current_focus_binding
    have he : all_mode_items { s with last_left_click := now } = [] := h
    simp [he]
  rw [hc]

/-- Helper: with a focused binding, a left-click records its timestamp and
appends the focused binding to the queue selected by the double-click
test. -/
theorem handle_left_click_spec (s : EngineState) (b : ActionBinding) (now : Int)
    (h : current_focus_binding s = some b) :
    handle_left_click now s =
      if is_double_click s now then
        { s with last_left_click := now, secondary_queue := s.secondary_queue ++ [b] }
      else
        { s with last_left_click := now, primary_queue := s.primary_queue ++ [b] } := by
  unfold handle_left_click
  have hc : current_focus_binding { s with last_left_click := now } = some b := by
    rw [current_focus_binding_last_update]
    exact h
  rw [hc]

/-- Helper: a left-click always records its own timestamp as the new
`_last_left_click`. -/
theorem handle_left_click_last (now : Int) (s : EngineState) :
    (handle_left_click now s).last_left_click = now := by
  unfold handle_left_click
  cases hc : current_focus_binding { s with last_left_click := now } with
  | none => rfl
  | some b => by_cases hd : is_double_click s now <;> simp [hd]

/-- Claim C10: a left-click while the menu is open but the active mode's
concatenated item list is empty appends nothing and changes nothing except
`_last_left_click`, which it sets to the click's time; the next left-click's
double-click classification is therefore measured against this otherwise
no-op click. -/
theorem C10_noop_click_updates_timestamp (s : EngineState) (now t2 : Int)
    (hm : s.menu_active = true) (he : all_mode_items s = []) :
    handle_left_click now s = { s with last_left_click := now } ∧
    is_double_click (handle_left_click now s) t2 = decide (t2 - now < 350) := by
  have h1 := handle_left_click_no_focus s now he
  exact ⟨h1, by rw [h1]; rfl⟩

/-- Witness for C10 at the concrete open state `sEmptyMode` (no bindings in
the active mode), clicking at 500 ms and probing the classification of a
follow-up click at 700 ms. -/
theorem C10_noop_click_updates_timestamp_witness :
    handle_left_click 500 sEmptyMode = { sEmptyMode with last_left_click := 500 } ∧
    is_double_click (handle_left_click 500 sEmptyMode) 700 = decide ((700 : Int) - 500 < 350) :=
  C10_noop_click_updates_timestamp sEmptyMode 500 700 rfl rfl

/-- Claim C7: the focused binding is the clamped-index element of the
concatenation of the active mode's primary and secondary lists — for every
(integer) overlay focus index it is an element of that concatenation
whenever the concatenation is non-empty; when the concatenation is empty no
binding is focused, a left-click (selection) changes nothing but the click
timestamp, and a right-click (undo) leaves both queues unchanged (in any
reachable such state the queues are empty, since appends require a focused
binding, so the right-click is reinterpreted as a cancel, which does not
touch the queues). -/
theorem C7_focus_resolution (s t : EngineState) (now : Int)
    (hs : all_mode_items s ≠ [])
    (ht : all_mode_items t = []) (htp : t.primary_queue = [])
    (hts : t.secondary_queue = []) :
    (∃ b, current_focus_binding s = some b ∧ b ∈ all_mode_items s) ∧
    current_focus_binding t = none ∧
    handle_left_click now t = { t with last_left_click := now } ∧
    (handle_right_click t).primary_queue = t.primary_queue ∧
    (handle_right_click t).secondary_queue = t.secondary_queue := by
  refine ⟨?_, ?_, handle_left_click_no_focus t now ht, ?_, ?_⟩
  · unfold current_focus_binding
    rw [dif_neg hs]
    exact ⟨_, rfl, List.get_mem _ _ _⟩
  · unfold current_focus_binding
    rw [dif_pos ht]
  · simp [handle_right_click, htp, hts, toggle_menu]
  · simp [handle_right_click, htp, hts, toggle_menu]

/-- Witness for C7: the open state `s1w` has a non-empty concatenation and a
focused binding; the open state `sEmptyMode` has an empty concatenation, so
nothing is focused and a left-click at 42 ms or a right-click leaves its
queues unchanged. -/
theorem C7_focus_resolution_witness :
    (∃ b, current_focus_binding s1w = some b ∧ b ∈ all_mode_items s1w) ∧
    current_focus_binding sEmptyMode = none ∧
    handle_left_click 42 sEmptyMode = { sEmptyMode with last_left_click := 42 } ∧
    (handle_right_click sEmptyMode).primary_queue = sEmptyMode.primary_queue ∧
    (handle_right_click sEmptyMode).secondary_queue = sEmptyMode.secondary_queue :=
  C7_focus_resolution s1w sEmptyMode 42 (by decide) rfl rfl rfl

/-- Claim C2: while the menu is open with a focused binding, a left-click
strictly less than 350 ms after the immediately preceding left-click appends
the focused binding to the secondary queue, a left-click at a gap of 350 ms
or more appends it to the primary queue, and the window is always measured
against the timestamp of the immediately preceding left-click (every click
records its own timestamp, so in a rapid run each click after the first
goes to the secondary queue). -/
theorem C2_left_click_timing (s1 s2 s3 : EngineState) (b1 b2 b3 : ActionBinding)
    (t1 t2 t3 t4 : Int)
    (hm1 : s1.menu_active = true) (h1 : current_focus_binding s1 = some b1)
    (hd1 : t1 - s1.last_left_click < 350)
    (hm2 : s2.menu_active = true) (h2 : current_focus_binding s2 = some b2)
    (hd2 : 350 ≤ t2 - s2.last_left_click)
    (hm3 : s3.menu_active = true) (h3 : current_focus_binding s3 = some b3)
    (hd34 : t4 - t3 < 350) :
    handle_left_click t1 s1 =
      { s1 with last_left_click := t1,
                secondary_queue := s1.secondary_queue ++ [b1] } ∧
    handle_left_click t2 s2 =
      { s2 with last_left_click := t2,
                primary_queue := s2.primary_queue ++ [b2] } ∧
    (handle_left_click t3 s3).last_left_click = t3 ∧
    (handle_left_click t4 (handle_left_click t3 s3)).secondary_queue =
      (handle_left_click t3 s3).secondary_queue ++ [b3] := by
  refine ⟨?_, ?_, handle_left_click_last t3 s3, ?_⟩
  · rw [handle_left_click_spec s1 b1 t1 h1]
    simp [is_double_click, hd1]
  · rw [handle_left_click_spec s2 b2 t2 h2]
    have hnd : ¬ (t2 - s2.last_left_click < 350) := by omega
    simp [is_double_click, hnd]
  · have hcb : current_focus_binding (handle_left_click t3 s3) = some b3 :=
      (current_focus_binding_handle_left_click t3 s3).trans h3
    rw [handle_left_click_spec (handle_left_click t3 s3) b3 t4 hcb]
    have hdc : is_double_click (handle_left_click t3 s3) t4 = true := by
      simp [is_double_click, handle_left_click_last, hd34]
    simp [hdc]

/-- Witness for C2 at `s2w` (open, last click at 1000 ms, focus on `bA`):
a click at 1200 ms (gap 200 ms) goes to the secondary queue, one at 2000 ms
(gap 1000 ms) goes to the primary queue, and a click at 5100 ms following
one at 5000 ms (gap 100 ms against the immediately preceding click) goes to
the secondary queue. -/
theorem C2_left_click_timing_witness :
    handle_left_click 1200 s2w =
      { s2w with last_left_click := 1200, secondary_queue := [bA] } ∧
    handle_left_click 2000 s2w =
      { s2w with last_left_click := 2000, primary_queue := [bA] } ∧
    (handle_left_click 5000 s2w).last_left_click = 5000 ∧
    (handle_left_click 5100 (handle_left_click 5000 s2w)).secondary_queue =
      (handle_left_click 5000 s2w).secondary_queue ++ [bA] :=
  C2_left_click_timing s2w s2w s2w bA bA bA 1200 2000 5000 5100
    rfl (by decide) (by decide) rfl (by decide) (by decide) rfl (by decide) (by decide)

/-- Claim C4: every open transition (trigger event while the menu is closed)
clears both execution queues, resets the focus index to 0 and displays
exactly the active mode's primary bindings tagged level 1 followed by its
secondary bindings tagged level 2, regardless of the prior state. -/
theorem C4_menu_open_reset (s : EngineState) (h : s.menu_active = false) :
    toggle_menu false s =
      { s with
        overlay := { s.overlay with
          items := s.mode.primary_queue.map (fun b => MenuItem.mk b 1) ++
            s.mode.secondary_queue.map (fun b => MenuItem.mk b 2),
          focus_index := 0,
          visible := true },
        primary_queue := [],
        secondary_queue := [],
        menu_active := true } := by
  simp [toggle_menu, h, overlay_open]

/-- Witness for C4 at the concrete closed state `s4w` (whose queues are
stale and non-empty). -/
theorem C4_menu_open_reset_witness :
    s4w.menu_active = false ∧
    toggle_menu false s4w =
      { s4w with
        overlay := { s4w.overlay with
          items := [⟨bA, 1⟩, ⟨bB, 1⟩, ⟨bC, 2⟩],
          focus_index := 0,
          visible := true },
        primary_queue := [],
        secondary_queue := [],
        menu_active := true } :=
  ⟨rfl, C4_menu_open_reset s4w rfl⟩

/-- Claim C3: while the menu is open, a right-click removes the last element
of the primary queue when it is non-empty (its secondary queue being
arbitrary — primary is checked first even when the most recent append was
secondary); otherwise removes the last element of a non-empty secondary
queue; otherwise (both empty) is reinterpreted as a cancel and forces the
menu closed (which leaves the, empty, queues untouched). -/
theorem C3_right_click_undo (s1 s2 s3 : EngineState)
    (q1 : List ActionBinding) (b1 : ActionBinding)
    (q2 : List ActionBinding) (b2 : ActionBinding)
    (hm1 : s1.menu_active = true) (h1 : s1.primary_queue = q1 ++ [b1])
    (hm2 : s2.menu_active = true) (h2p : s2.primary_queue = [])
    (h2 : s2.secondary_queue = q2 ++ [b2])
    (hm3 : s3.menu_active = true) (h3p : s3.primary_queue = [])
    (h3s : s3.secondary_queue = []) :
    handle_right_click s1 = { s1 with primary_queue := q1 } ∧
    handle_right_click s2 = { s2 with secondary_queue := q2 } ∧
    handle_right_click s3 =
      { s3 with overlay := overlay_close s3.overlay, menu_active := false } := by
  refine ⟨?_, ?_, ?_⟩
  · simp [handle_right_click, h1]
  · simp [handle_right_click, h2p, h2]
  · simp [handle_right_click, h3p, h3s, toggle_menu, hm3]

/-- Witness for C3 at three concrete open states: primary `[A, B]` with
secondary `[C]` (pops `B` from primary even though `C` is in secondary),
primary empty with secondary `[C]` (pops `C`), and both queues empty
(forces the menu closed). -/
theorem C3_right_click_undo_witness :
    handle_right_click s3a = { s3a with primary_queue := [bA] } ∧
    handle_right_click s3b = { s3b with secondary_queue := [] } ∧
    handle_right_click s3c =
      { s3c with overlay := overlay_close s3c.overlay, menu_active := false } :=
  C3_right_click_undo s3a s3b s3c [bA] bB [] bC rfl rfl rfl rfl rfl rfl rfl rfl

/-- Claim C9 counterexample: in the open state `s9w` (three items, focus 0),
a scroll away from the user (`dy = 1`, a scroll up in the `pynput`
convention) does not invoke the overlay's focus-advance: `_on_scroll`
routes `dy > 0` to `focus_prev`, so focus wraps to 2 rather than advancing
to 1. -/
theorem C9_scroll_direction_counterexample :
    scroll_away_from_user 1 = true ∧ s9w.menu_active = true ∧
    on_scroll 1 s9w ≠ { s9w with overlay := focus_next s9w.overlay } ∧
    (on_scroll 1 s9w).overlay.focus_index = 2 ∧
    (focus_next s9w.overlay).focus_index = 1 := by
  refine ⟨rfl, rfl, ?_, by decide, by decide⟩
  decide

/-- Claim C9, amended: a scroll while the menu is closed is a no-op; while
it is open, a scroll away from the user (`dy > 0`) invokes the overlay's
focus-retreat (`focus_prev`) and a scroll toward the user (`dy ≤ 0`) its
focus-advance (`focus_next`); the menu-open flag and both queues are
unchanged in every case. -/
theorem C9_scroll_routing (s : EngineState) (dy : Int) :
    (on_scroll dy s =
      if s.menu_active then
        if scroll_away_from_user dy then { s with overlay := focus_prev s.overlay }
        else { s with overlay := focus_next s.overlay }
      else s) ∧
    (on_scroll dy s).menu_active = s.menu_active ∧
    (on_scroll dy s).primary_queue = s.primary_queue ∧
    (on_scroll dy s).secondary_queue = s.secondary_queue := by
  have h : on_scroll dy s =
      if s.menu_active then
        if scroll_away_from_user dy then { s with overlay := focus_prev s.overlay }
        else { s with overlay := focus_next s.overlay }
      else s := by
    by_cases hm : s.menu_active <;>
      by_cases hd : 0 < dy <;>
        simp [on_scroll, scroll_away_from_user, hm, hd]
  refine ⟨h, ?_, ?_, ?_⟩ <;>
    · rw [h]
      by_cases hm : s.menu_active <;> by_cases hd : scroll_away_from_user dy <;>
        simp [hm, hd]

/-- Helper: when every binding in a list dispatches successfully, the
dispatch loop makes exactly the corresponding calls, in list order, and
raises nothing. -/
theorem run_dispatches_all_ok (reg : ActionRegistry) (l : List ActionBinding)
    (h : ∀ b ∈ l, reg.execute b.id b.params = Except.ok ()) :
    run_dispatches reg l = (l.map dispatch_call, none) := by
  induction l with
  | nil => rfl
  | cons b rest ih =>
    have hb : reg.execute b.id b.params = Except.ok () := h b (List.mem_cons_self b rest)
    have hrest : ∀ x ∈ rest, reg.execute x.id x.params = Except.ok () :=
      fun x hx => h x (List.mem_cons_of_mem b hx)
    simp [run_dispatches, hb, ih hrest]

/-- Helper: the dispatch loop stops at the first binding whose dispatch
raises: only the successful calls before it are made, and its exception is
returned. -/
theorem run_dispatches_first_error (reg : ActionRegistry) (good : List ActionBinding)
    (bad : ActionBinding) (rest : List ActionBinding) (err : String)
    (hgood : ∀ b ∈ good, reg.execute b.id b.params = Except.ok ())
    (hbad : reg.execute bad.id bad.params = Except.error err) :
    run_dispatches reg (good ++ bad :: rest) = (good.map dispatch_call, some err) := by
  induction good with
  | nil => simp [run_dispatches, hbad]
  | cons b g ih =>
    have hb : reg.execute b.id b.params = Except.ok () := hgood b (List.mem_cons_self b g)
    have hg : ∀ x ∈ g, reg.execute x.id x.params = Except.ok () :=
      fun x hx => hgood x (List.mem_cons_of_mem b hx)
    simp [run_dispatches, hb, ih hg]

/-- Claim C1: when the batch-execute event fires while the menu is open (and
every queued dispatch succeeds), every binding in the primary queue is
dispatched in insertion order, then every binding in the secondary queue in
insertion order, and then a forced close is performed that hides the overlay
and clears the menu-open flag but leaves both queues populated. -/
theorem C1_batch_execute_order (reg : ActionRegistry) (s : EngineState)
    (hm : s.menu_active = true)
    (h : ∀ b ∈ s.primary_queue ++ s.secondary_queue,
      reg.execute b.id b.params = Except.ok ()) :
    execute_queues reg s =
      (s.primary_queue.map dispatch_call ++ s.secondary_queue.map dispatch_call,
        Except.ok { s with overlay := overlay_close s.overlay, menu_active := false }) := by
  have hp : ∀ b ∈ s.primary_queue, reg.execute b.id b.params = Except.ok () :=
    fun b hb => h b (List.mem_append_left _ hb)
  have hs2 : ∀ b ∈ s.secondary_queue, reg.execute b.id b.params = Except.ok () :=
    fun b hb => h b (List.mem_append_right _ hb)
  unfold execute_queues
  rw [run_dispatches_all_ok reg _ hp, run_dispatches_all_ok reg _ hs2]
  simp [toggle_menu]

/-- Witness for C1 at `s1w` (primary `[A, B]`, secondary `[C]`, all
registered in `regAll`): the calls `a`, `b`, `c` are made in that order and
the resulting state is the closed state with both queues still populated. -/
theorem C1_batch_execute_order_witness :
    execute_queues regAll s1w =
      ([("a", []), ("b", []), ("c", [])],
        Except.ok { s1w with overlay := overlay_close s1w.overlay, menu_active := false }) :=
  C1_batch_execute_order regAll s1w rfl (by decide)

/-- Claim C5 counterexample: with only `copy` registered and the open state
`s5w` whose primary queue is `[nope, copy]`, batch execution makes no call
at all — in particular the remaining registered binding `copy` is never
dispatched — and the raised unknown-identifier error propagates instead of
producing a closed state, refuting the claim that a dispatch failure is
non-fatal and the remaining queue still runs. -/
theorem C5_nonfatal_dispatch_counterexample :
    s5w.menu_active = true ∧
    s5w.primary_queue = [bNope, bCopy] ∧
    regCopyOnly.execute bCopy.id bCopy.params = Except.ok () ∧
    execute_queues regCopyOnly s5w = ([], Except.error "Unknown action nope") ∧
    dispatch_call bCopy ∉ (execute_queues regCopyOnly s5w).1 :=
  ⟨rfl, rfl, rfl, by decide, by decide⟩

/-- Claim C5, amended: a dispatch failure during batch execution (an unknown
action identifier, or a handler-internal failure) is fatal to the batch,
wherever in the two queues the failing binding sits: `_execute_queues` has
no exception handler, so the calls made are exactly those for the
successfully dispatched bindings before the failing one (for a failure in
the primary queue, the primary bindings before it; for a failure in the
secondary queue, the whole primary queue and then the secondary bindings
before it), the remaining queued bindings are not dispatched, the forced
close is not performed, and the exception propagates. -/
theorem C5_dispatch_error_aborts (reg : ActionRegistry) (sP sS : EngineState)
    (good : List ActionBinding) (bad : ActionBinding) (rest : List ActionBinding)
    (err : String)
    (good2 : List ActionBinding) (bad2 : ActionBinding) (rest2 : List ActionBinding)
    (err2 : String)
    (hqP : sP.primary_queue = good ++ bad :: rest)
    (hgood : ∀ b ∈ good, reg.execute b.id b.params = Except.ok ())
    (hbad : reg.execute bad.id bad.params = Except.error err)
    (hpS : ∀ b ∈ sS.primary_queue, reg.execute b.id b.params = Except.ok ())
    (hqS : sS.secondary_queue = good2 ++ bad2 :: rest2)
    (hgood2 : ∀ b ∈ good2, reg.execute b.id b.params = Except.ok ())
    (hbad2 : reg.execute bad2.id bad2.params = Except.error err2) :
    execute_queues reg sP = (good.map dispatch_call, Except.error err) ∧
    execute_queues reg sS =
      (sS.primary_queue.map dispatch_call ++ good2.map dispatch_call,
        Except.error err2) := by
  constructor
  · unfold execute_queues
    rw [hqP, run_dispatches_first_error reg good bad rest err hgood hbad]
  · unfold execute_queues
    rw [run_dispatches_all_ok reg _ hpS]
    rw [hqS, run_dispatches_first_error reg good2 bad2 rest2 err2 hgood2 hbad2]

/-- Witness for the amended C5 with `regCopyOnly`: in `s5w` the unregistered
`nope` heads the primary queue, so no call at all is made and the registered
`copy` behind it is never dispatched; in `s5s` the primary `copy` is
dispatched, then the unregistered `nope` heading the secondary queue raises,
and the registered `copy` behind it is never dispatched. -/
theorem C5_dispatch_error_aborts_witness :
    execute_queues regCopyOnly s5w = ([], Except.error "Unknown action nope") ∧
    execute_queues regCopyOnly s5s =
      ([("copy", [])], Except.error "Unknown action nope") :=
  C5_dispatch_error_aborts regCopyOnly s5w s5s
    [] bNope [bCopy] "Unknown action nope"
    [] bNope [bCopy] "Unknown action nope"
    rfl (by simp) (by decide) (by decide) rfl (by simp) (by decide)

/-- Claim C6 counterexample: starting from the closed state `s6w` over a
mode with one binding, opening the menu, left-clicking at 1000 ms (appending
`bA` to the primary queue) and then closing the menu by the toggle leaves
the engine with the menu closed yet a non-empty primary queue, refuting the
invariant that the queues are non-empty only while the menu is open. -/
theorem C6_queue_invariant_counterexample :
    (toggle_menu false (handle_left_click 1000 (toggle_menu false s6w))).menu_active
      = false ∧
    (toggle_menu false (handle_left_click 1000 (toggle_menu false s6w))).primary_queue
      = [bA] := by
  decide

/-- Claim C6, amended: both queues are cleared on the open transition, and
only there — the toggle-close, forced-close (cancel) and batch-execute
transitions all leave both queues exactly as they were, so queues may remain
non-empty after a close, cancel or execute until the next open clears
them. -/
theorem C6_amended_queue_lifecycle (sClosed sOpen sAny : EngineState)
    (reg : ActionRegistry) (tr : List DispatchCall) (s' : EngineState)
    (hc : sClosed.menu_active = false) (ho : sOpen.menu_active = true)
    (hex : execute_queues reg sAny = (tr, Except.ok s')) :
    (toggle_menu false sClosed).primary_queue = [] ∧
    (toggle_menu false sClosed).secondary_queue = [] ∧
    (toggle_menu false sOpen).primary_queue = sOpen.primary_queue ∧
    (toggle_menu false sOpen).secondary_queue = sOpen.secondary_queue ∧
    (toggle_menu true sAny).primary_queue = sAny.primary_queue ∧
    (toggle_menu true sAny).secondary_queue = sAny.secondary_queue ∧
    s'.primary_queue = sAny.primary_queue ∧
    s'.secondary_queue = sAny.secondary_queue := by
  have hs' : s' = toggle_menu true sAny := by
    unfold execute_queues at hex
    split at hex
    · simp at hex
    · split at hex
      · simp at hex
      · simp at hex
        exact hex.2.symm
  subst hs'
  refine ⟨?_, ?_, ?_, ?_, ?_, ?_, ?_, ?_⟩ <;> simp [toggle_menu, hc, ho]

/-- Witness for the amended C6: opening from the stale closed state `s4w`
clears its queues; closing from the open state `s1w`, force-closing it, and
batch-executing it with `regAll` all leave its queues `[A, B]` / `[C]`
unchanged. -/
theorem C6_amended_queue_lifecycle_witness :
    (toggle_menu false s4w).primary_queue = [] ∧
    (toggle_menu false s4w).secondary_queue = [] ∧
    (toggle_menu false s1w).primary_queue = s1w.primary_queue ∧
    (toggle_menu false s1w).secondary_queue = s1w.secondary_queue ∧
    (toggle_menu true s1w).primary_queue = s1w.primary_queue ∧
    (toggle_menu true s1w).secondary_queue = s1w.secondary_queue ∧
    (toggle_menu true s1w).primary_queue = s1w.primary_queue ∧
    (toggle_menu true s1w).secondary_queue = s1w.secondary_queue :=
  C6_amended_queue_lifecycle s4w s1w s1w regAll
    [("a", []), ("b", []), ("c", [])] (toggle_menu true s1w) rfl rfl (by decide)

/-- Helper: reducing the left summand modulo `n` first does not change a sum
taken modulo `n`. -/
theorem emod_add_left_reduce (a b n : Int) : (a % n + b) % n = (a + b) % n := by
  conv_lhs => rw [Int.add_emod]
  rw [Int.emod_emod_of_dvd a dvd_rfl, ← Int.add_emod]

/-- Helper: `focus_next` on a non-empty overlay, written with the overlay's
constructor: the focus index advances by one modulo the item count. -/
theorem focus_next_set (it : List MenuItem) (x : Int) (v : Bool) (h : it ≠ []) :
    focus_next ⟨it, x, v⟩ = ⟨it, (x + 1) % (it.length : Int), v⟩ := by
  unfold focus_next
  dsimp only
  rw [if_neg h]

/-- Helper: `focus_prev` on a non-empty overlay, written with the overlay's
constructor: the focus index retreats by one modulo the item count. -/
theorem focus_prev_set (it : List MenuItem) (x : Int) (v : Bool) (h : it ≠ []) :
    focus_prev ⟨it, x, v⟩ = ⟨it, (x - 1) % (it.length : Int), v⟩ := by
  unfold focus_prev
  dsimp only
  rw [if_neg h]

/-- Helper: `k + 1` applications of `focus_next` on a non-empty overlay
advance the focus index by `k + 1` modulo the item count and change nothing
else. -/
theorem focus_next_iterate (it : List MenuItem) (fi : Int) (v : Bool)
    (h : it ≠ []) (k : Nat) :
    focus_next^[k + 1] (⟨it, fi, v⟩ : OverlayState) =
      ⟨it, (fi + ((k + 1 : Nat) : Int)) % (it.length : Int), v⟩ := by
  induction k with
  | zero =>
    rw [Function.iterate_one, focus_next_set it fi v h]
    norm_num
  | succ k ih =>
    rw [Function.iterate_succ_apply', ih, focus_next_set it _ v h]
    have hv : ((fi + ((k + 1 : Nat) : Int)) % (it.length : Int) + 1) % (it.length : Int)
        = (fi + ((k + 1 + 1 : Nat) : Int)) % (it.length : Int) := by
      rw [emod_add_left_reduce]
      push_cast
      ring_nf
    rw [hv]

/-- Claim C8: `focus_next` and `focus_prev` move the focus index by +1 / -1
modulo the displayed item count, wrapping in both directions: with `N > 0`
items and any in-range starting index, `N` applications of `focus_next`
return the overlay to its starting state, and `focus_prev` followed by
`focus_next` is the identity; with zero items both operations are no-ops. -/
theorem C8_focus_wraparound (o z : OverlayState)
    (h0 : 0 ≤ o.focus_index) (h1 : o.focus_index < (o.items.length : Int))
    (hz : z.items = []) :
    focus_next^[o.items.length] o = o ∧
    focus_next (focus_prev o) = o ∧
    focus_next z = z ∧
    focus_prev z = z := by
  obtain ⟨it, fi, vis⟩ := o
  obtain ⟨zit, zfi, zv⟩ := z
  dsimp only at h0 h1 hz ⊢
  subst hz
  have hne : it ≠ [] := by
    intro hh
    rw [hh] at h1
    simp at h1
    omega
  have hlen : 0 < it.length := List.length_pos.mpr hne
  refine ⟨?_, ?_, ?_, ?_⟩
  · obtain ⟨m, hm⟩ : ∃ m, it.length = m + 1 := ⟨it.length - 1, by omega⟩
    rw [hm, focus_next_iterate it fi vis hne m]
    have hv : (fi + ((m + 1 : Nat) : Int)) % (it.length : Int) = fi := by
      rw [← hm]
      have h2 := Int.add_mul_emod_self_left (a := fi) (b := (it.length : Int)) (c := 1)
      rw [mul_one] at h2
      rw [h2, Int.emod_eq_of_lt h0 h1]
    rw [hv]
  · rw [focus_prev_set it fi vis hne, focus_next_set it _ vis hne]
    have hv : ((fi - 1) % (it.length : Int) + 1) % (it.length : Int) = fi := by
      rw [emod_add_left_reduce]
      have hs : fi - 1 + 1 = fi := by ring
      rw [hs, Int.emod_eq_of_lt h0 h1]
    rw [hv]
  · unfold focus_next
    dsimp only
    rw [if_pos rfl]
  · unfold focus_prev
    dsimp only
    rw [if_pos rfl]

/-- Witness for C8: on the overlay `oW` (three items, focus 1) three
applications of `focus_next` are the identity, as is `focus_prev` followed
by `focus_next`; on the empty overlay `zW` both operations are no-ops. -/
theorem C8_focus_wraparound_witness :
    focus_next^[oW.items.length] oW = oW ∧
    focus_next (focus_prev oW) = oW ∧
    focus_next zW = zW ∧
    focus_prev zW = zW :=
  C8_focus_wraparound oW zW (by decide) (by decide) rfl

end WinEnhanceMouse
